import Mathlib

/-!
Shallow embedding of the starter-pack order lifecycle
(`src/services/starterPackService.ts` and the status-update gating of
`src/components/StarterPackOrdersAdmin.tsx`).

Modelling conventions:
* Instants are integer milliseconds since the epoch (the value of
  `Date.getTime()`); `new Date().toISOString()` stored in a column is
  modelled as the current instant passed in as an explicit `now` argument.
* A supabase `update(updateData).eq('id', orderId)` is modelled as a
  function from the order row to the updated row: exactly the columns
  present in `updateData` are overwritten, every other column keeps its
  previous value.
* The DB-generated columns `id` and `updated_at` are omitted; `created_at`
  (DB default `now()`) is modelled as the creation instant.
* Fulfillment and payment statuses are the string literals used by the
  source.
-/

namespace StarterPack

/-- `DeliveryAddress` interface from the source. -/
structure DeliveryAddress where
  addressLine1 : String
  addressLine2 : String
  city : String
  emirate : String
  contactNumber : String
deriving Repr, DecidableEq

/-- `StarterPackOrder` interface from the source (row of
`starter_pack_orders`).  `status_timestamps` is the audit-trail mapping
from stage name to the instant recorded for that stage. -/
structure StarterPackOrder where
  user_id : String
  restaurant_id : Option String
  order_status : String
  includes_tablet : Bool
  tablet_cost : Int
  total_cost : Int
  payment_status : String
  stripe_payment_intent_id : Option String
  estimated_delivery : Option Int
  delivered_at : Option Int
  delivery_address_line1 : Option String
  delivery_address_line2 : Option String
  delivery_city : Option String
  delivery_emirate : Option String
  delivery_contact_number : Option String
  proof_of_delivery_url : Option String
  status_timestamps : Option (List (String × Int))
  created_at : Int
deriving Repr, DecidableEq

/-- `StarterPackService.STARTER_PACK_BASE_COST`. -/
def STARTER_PACK_BASE_COST : Int := 0

/-- `StarterPackService.TABLET_COST`. -/
def TABLET_COST : Int := 499

/-- `StarterPackService.createOrder`: inserts a fresh row.  The insert sets
`order_status: 'received'`, `payment_status: 'completed'` and the one
audit-trail entry `{ received: now }`; columns absent from the insert
(`stripe_payment_intent_id`, `estimated_delivery`, `delivered_at`,
`proof_of_delivery_url`) start absent. -/
def createOrder (now : Int) (userId : String) (includesTablet : Bool)
    (deliveryAddress : DeliveryAddress) (restaurantId : Option String) :
    StarterPackOrder :=
  let tabletCost := if includesTablet then TABLET_COST else 0
  let totalCost := STARTER_PACK_BASE_COST + tabletCost
  { user_id := userId
    restaurant_id := restaurantId
    order_status := "received"
    includes_tablet := includesTablet
    tablet_cost := tabletCost
    total_cost := totalCost
    payment_status := "completed"
    stripe_payment_intent_id := none
    estimated_delivery := none
    delivered_at := none
    delivery_address_line1 := some deliveryAddress.addressLine1
    delivery_address_line2 := some deliveryAddress.addressLine2
    delivery_city := some deliveryAddress.city
    delivery_emirate := some deliveryAddress.emirate
    delivery_contact_number := some deliveryAddress.contactNumber
    proof_of_delivery_url := none
    status_timestamps := some [("received", now)]
    created_at := now }

/-- `StarterPackService.updateOrderPaymentStatus`: builds
`updateData = { payment_status, stripe_payment_intent_id }`, adds
`order_status: 'received'` when `status === 'completed'`, and writes it. -/
def updateOrderPaymentStatus (order : StarterPackOrder)
    (paymentIntentId : String) (status : String) : StarterPackOrder :=
  if status == "completed" then
    { order with
      payment_status := status
      stripe_payment_intent_id := some paymentIntentId
      order_status := "received" }
  else
    { order with
      payment_status := status
      stripe_payment_intent_id := some paymentIntentId }

/-- `StarterPackService.updateOrderStatus`: builds
`updateData = { order_status: status }`, adds
`delivered_at: new Date().toISOString()` when `status === 'delivered'`,
and writes it.  No transition validation and no audit-trail write. -/
def updateOrderStatus (now : Int) (order : StarterPackOrder)
    (status : String) : StarterPackOrder :=
  if status == "delivered" then
    { order with order_status := status, delivered_at := some now }
  else
    { order with order_status := status }

/-- `StarterPackService.updateProofOfDelivery`: writes
`{ proof_of_delivery_url: proofUrl }`, unconditionally. -/
def updateProofOfDelivery (order : StarterPackOrder) (proofUrl : String) :
    StarterPackOrder :=
  { order with proof_of_delivery_url := some proofUrl }

/-- The fixed stage ordering used by `StarterPackService.getStatusIndex`. -/
def statusList : List String :=
  ["pending", "received", "preparing", "configuring", "out_for_delivery",
   "delivered"]

/-- `StarterPackService.getStatusIndex`: `statuses.indexOf(status)` —
the 0-based position, or `-1` when the string is not a stage name. -/
def getStatusIndex (status : String) : Int :=
  match statusList.findIdx? (· == status) with
  | some i => (i : Int)
  | none => -1

/-- `StarterPackService.calculateEstimatedDelivery`:
`orderTime.getTime() + 9 * 60 * 60 * 1000`. -/
def calculateEstimatedDelivery (orderDate : Int) : Int :=
  orderDate + 9 * 60 * 60 * 1000

/-- `StarterPackService.isDelayed`.  The source reads the clock
(`new Date()`); that instant is the explicit `now` argument.  The
`orderDate` parameter is present in the source signature and unused. -/
def isDelayed (now : Int) (orderDate : Int) (currentStatus : String)
    (estimatedDelivery : Int) : Bool :=
  if currentStatus == "delivered" || currentStatus == "out_for_delivery" then
    false
  else
    decide (estimatedDelivery < now)

/-- `StarterPackService.getDelayMessage`.  `delayHours` is
`Math.floor((now - eta) / (1000 * 60 * 60))`, i.e. floor division. -/
def getDelayMessage (now : Int) (estimatedDelivery : Int) : String :=
  let delayHours : Int := Int.fdiv (now - estimatedDelivery) (1000 * 60 * 60)
  if delayHours < 1 then
    "Your order is slightly delayed. We apologize for the inconvenience."
  else if delayHours < 3 then
    let plural := if delayHours > 1 then "s" else ""
    s!"Your order is delayed by approximately {delayHours} hour{plural}. Our team is working to get it to you as soon as possible."
  else
    "We sincerely apologize for the delay. Your order is taking longer than expected. Please contact support for more information."

/-- The `statuses` array offered by `StarterPackOrdersAdmin` (note:
`pending` is not offered). -/
def adminStatusValues : List String :=
  ["received", "preparing", "configuring", "out_for_delivery", "delivered"]

/-- The status-button gating of `StarterPackOrdersAdmin` (with no update
in flight): the button for `targetStatus` is enabled iff
`canUpdate || isCompleted`, where `isCompleted`, `isCurrent`, `isNext`
and `canUpdate` are computed exactly as in the component
(`disabled = updating || (!canUpdate && !isCompleted)`). -/
def adminStatusButtonEnabled (currentStatus targetStatus : String) : Bool :=
  let currentIndex := getStatusIndex currentStatus
  let statusIndex := getStatusIndex targetStatus
  let isCompleted := decide (statusIndex < currentIndex)
  let isCurrent := targetStatus == currentStatus
  let isNext := statusIndex == currentIndex + 1
  let canUpdate := isNext || isCurrent
  canUpdate || isCompleted

/-- `StarterPackOrdersAdmin` renders the proof-of-delivery upload section
only under `selectedOrder.order_status === 'delivered'`. -/
def adminProofSectionShown (orderStatus : String) : Bool :=
  orderStatus == "delivered"

/-- The write operations of the service, as events applied to an order
row (each `now` the instant the source would read from the clock). -/
inductive LifecycleOp where
  | updStatus (now : Int) (status : String)
  | updPayment (paymentIntentId : String) (status : String)
  | updProof (proofUrl : String)
deriving Repr, DecidableEq

/-- Apply one lifecycle operation to an order row. -/
def applyOp (order : StarterPackOrder) : LifecycleOp → StarterPackOrder
  | .updStatus now status => updateOrderStatus now order status
  | .updPayment pid status => updateOrderPaymentStatus order pid status
  | .updProof url => updateProofOfDelivery order url

/-- Run a sequence of lifecycle operations. -/
def runOps (order : StarterPackOrder) (ops : List LifecycleOp) :
    StarterPackOrder :=
  ops.foldl applyOp order

/-- A concrete delivery address used in concrete evaluations. -/
def sampleAddress : DeliveryAddress :=
  { addressLine1 := "Unit 7"
    addressLine2 := ""
    city := "Dubai"
    emirate := "Dubai"
    contactNumber := "0501234567" }

/-- A row whose payment is still outstanding (`pending`/`pending`, empty
audit trail), as posited by the settlement scenario; `createOrder` itself
never produces such a row. -/
def pendingDeviceOrder : StarterPackOrder :=
  { user_id := "u"
    restaurant_id := none
    order_status := "pending"
    includes_tablet := true
    tablet_cost := 499
    total_cost := 499
    payment_status := "pending"
    stripe_payment_intent_id := none
    estimated_delivery := none
    delivered_at := none
    delivery_address_line1 := some "Unit 7"
    delivery_address_line2 := some ""
    delivery_city := some "Dubai"
    delivery_emirate := some "Dubai"
    delivery_contact_number := some "0501234567"
    proof_of_delivery_url := none
    status_timestamps := some []
    created_at := 0 }

/-- Every lifecycle operation leaves `status_timestamps` untouched. -/
lemma applyOp_status_timestamps (o : StarterPackOrder) (op : LifecycleOp) :
    (applyOp o op).status_timestamps = o.status_timestamps := by
  cases op with
  | updStatus now s =>
      simp only [applyOp, updateOrderStatus]
      split <;> rfl
  | updPayment pid s =>
      simp only [applyOp, updateOrderPaymentStatus]
      split <;> rfl
  | updProof url => rfl

/-- One lifecycle step preserves "`delivered` status forces a
`delivered_at` value". -/
lemma delivered_at_set_preserved (o : StarterPackOrder) (op : LifecycleOp)
    (h : o.order_status = "delivered" → o.delivered_at ≠ none) :
    (applyOp o op).order_status = "delivered" →
      (applyOp o op).delivered_at ≠ none := by
  cases op with
  | updStatus now s =>
      simp only [applyOp, updateOrderStatus]
      split
      · intro _
        simp
      · rename_i hne
        intro hs
        simp only [beq_iff_eq] at hne
        exact absurd hs hne
  | updPayment pid s =>
      simp only [applyOp, updateOrderPaymentStatus]
      split
      · intro hs
        exact absurd hs (by simp)
      · intro hs
        exact h hs
  | updProof url =>
      exact fun hs => h hs

/-- The invariant of `delivered_at_set_preserved`, carried over a whole
run of operations. -/
lemma runOps_delivered_at_invariant (ops : List LifecycleOp)
    (o : StarterPackOrder)
    (h : o.order_status = "delivered" → o.delivered_at ≠ none) :
    (runOps o ops).order_status = "delivered" →
      (runOps o ops).delivered_at ≠ none := by
  induction ops generalizing o with
  | nil => exact h
  | cons op rest ih =>
      exact ih (applyOp o op) (delivered_at_set_preserved o op h)

/-- Claim C1: the claim as stated is false — `updateOrderStatus` never
fails, so a regressive target succeeds and the fulfillment stage index
strictly decreases after a single call; the admin UI moreover enables the
earlier stage `received` while the order is `preparing`. -/
theorem advance_can_regress_ctrex :
    getStatusIndex (runOps (createOrder 0 "u" false sampleAddress none)
        [LifecycleOp.updStatus 3 "pending"]).order_status <
      getStatusIndex (createOrder 0 "u" false sampleAddress none).order_status ∧
    adminStatusButtonEnabled "preparing" "received" = true := by
  decide

/-- Claim C1 (amended): `updateOrderStatus` performs no transition
validation — it succeeds on every target and sets `order_status` to it —
and the admin status-button gating enables exactly the targets whose
stage index is at most the current index plus one (current, immediate
next, and every earlier stage), so skipping ahead is blocked in the UI
while regression is not. -/
theorem updateOrderStatus_unvalidated_admin_gated (now : Int)
    (o : StarterPackOrder) (s : String) (c t : String)
    (hc : c ∈ statusList) (ht : t ∈ adminStatusValues) :
    (updateOrderStatus now o s).order_status = s ∧
    adminStatusButtonEnabled c t =
      decide (getStatusIndex t ≤ getStatusIndex c + 1) := by
  refine ⟨?_, ?_⟩
  · unfold updateOrderStatus
    split <;> rfl
  · fin_cases hc <;> fin_cases ht <;> decide

/-- Claim C1 (amended) at a concrete input: regressing `preparing` to
`pending` succeeds, and the admin gating for `preparing` → `received`
matches the index bound. -/
theorem updateOrderStatus_unvalidated_admin_gated_witness :
    (updateOrderStatus 0 (createOrder 0 "u" false sampleAddress none)
        "pending").order_status = "pending" ∧
    adminStatusButtonEnabled "preparing" "received" =
      decide (getStatusIndex "received" ≤ getStatusIndex "preparing" + 1) :=
  updateOrderStatus_unvalidated_admin_gated 0
    (createOrder 0 "u" false sampleAddress none) "pending" "preparing"
    "received" (by decide) (by decide)

/-- Claim C2: the claim as stated is false — a genuine advance from
`received` into `preparing` writes no audit-trail entry for `preparing`;
the trail still holds exactly the creation-time `received` entry. -/
theorem advance_writes_no_audit_entry_ctrex :
    (updateOrderStatus 5 (createOrder 0 "u" false sampleAddress none)
        "preparing").order_status = "preparing" ∧
    (updateOrderStatus 5 (createOrder 0 "u" false sampleAddress none)
        "preparing").status_timestamps = some [("received", 0)] := by
  decide

/-- Claim C2 (amended): the only audit-trail write is `createOrder`,
which records the creation instant under the `received` key; every
lifecycle operation (`updateOrderStatus`, `updateOrderPaymentStatus`,
`updateProofOfDelivery`) leaves `status_timestamps` unchanged, so no
entry is ever added or overwritten after creation — in particular
entering a stage records nothing. -/
theorem audit_trail_only_written_at_creation (now : Int) (userId : String)
    (includesTablet : Bool) (addr : DeliveryAddress)
    (rid : Option String) (o : StarterPackOrder) (op : LifecycleOp) :
    (createOrder now userId includesTablet addr rid).status_timestamps =
      some [("received", now)] ∧
    (applyOp o op).status_timestamps = o.status_timestamps :=
  ⟨rfl, applyOp_status_timestamps o op⟩

/-- Claim C3: the claim as stated is false — after regressing a
delivered order to `received`, `delivered_at` remains set while the
state is not `delivered`, and a repeated `delivered` call overwrites the
previously set `delivered_at`. -/
theorem delivered_at_without_delivered_status_ctrex :
    (runOps (createOrder 0 "u" false sampleAddress none)
        [LifecycleOp.updStatus 5 "delivered",
         LifecycleOp.updStatus 7 "received"]).order_status = "received" ∧
    (runOps (createOrder 0 "u" false sampleAddress none)
        [LifecycleOp.updStatus 5 "delivered",
         LifecycleOp.updStatus 7 "received"]).delivered_at = some 5 ∧
    (runOps (createOrder 0 "u" false sampleAddress none)
        [LifecycleOp.updStatus 5 "delivered",
         LifecycleOp.updStatus 9 "delivered"]).delivered_at = some 9 := by
  decide

/-- Claim C3 (amended): for every order reachable from `createOrder`
through the lifecycle operations, if the fulfillment state is
`delivered` then `delivered_at` is set; the converse direction of the
original claim fails (see the counterexample). -/
theorem delivered_status_implies_delivered_at (now : Int) (userId : String)
    (includesTablet : Bool) (addr : DeliveryAddress) (rid : Option String)
    (ops : List LifecycleOp)
    (h : (runOps (createOrder now userId includesTablet addr rid)
        ops).order_status = "delivered") :
    (runOps (createOrder now userId includesTablet addr rid)
      ops).delivered_at ≠ none := by
  refine runOps_delivered_at_invariant ops _ (fun hc => ?_) h
  rw [show (createOrder now userId includesTablet addr rid).order_status =
      "received" from rfl] at hc
  exact absurd hc (by decide)

/-- Claim C3 (amended) at a concrete input: one `delivered` update makes
the state `delivered` and `delivered_at` set. -/
theorem delivered_status_implies_delivered_at_witness :
    (runOps (createOrder 0 "u" false sampleAddress none)
        [LifecycleOp.updStatus 4 "delivered"]).order_status = "delivered" ∧
    (runOps (createOrder 0 "u" false sampleAddress none)
        [LifecycleOp.updStatus 4 "delivered"]).delivered_at ≠ none :=
  ⟨by decide,
   delivered_status_implies_delivered_at 0 "u" false sampleAddress none
     [LifecycleOp.updStatus 4 "delivered"] (by decide)⟩

/-- Claim C4: the claim as stated is false — settling an order whose
payment state is already terminal (`completed`) does not fail, it
overwrites the payment state; a `completed` outcome forces
`order_status` to `received` even on a `delivered` order (regression,
not "at least received"); and settling a `pending`/`pending` order adds
no `received` entry to the audit trail. -/
theorem settlement_not_guarded_ctrex :
    (updateOrderPaymentStatus (createOrder 0 "u" true sampleAddress none)
        "pi_2" "failed").payment_status = "failed" ∧
    (updateOrderPaymentStatus
        (updateOrderStatus 3 (createOrder 0 "u" true sampleAddress none)
          "delivered") "pi_123" "completed").order_status = "received" ∧
    (updateOrderPaymentStatus pendingDeviceOrder "pi_123"
        "completed").status_timestamps = some [] := by
  decide

/-- Claim C4 (amended): `updateOrderPaymentStatus` never fails — it
unconditionally overwrites `payment_status` and the settlement
reference, even when the payment state is already terminal; when the
outcome is `completed` it sets `order_status` to `received`
unconditionally (regressing any later stage); and it writes no
audit-trail entry. -/
theorem updateOrderPaymentStatus_unguarded (o : StarterPackOrder)
    (pid s : String) :
    (updateOrderPaymentStatus o pid s).payment_status = s ∧
    (updateOrderPaymentStatus o pid s).stripe_payment_intent_id = some pid ∧
    (updateOrderPaymentStatus o pid s).order_status =
      (if s == "completed" then "received" else o.order_status) ∧
    (updateOrderPaymentStatus o pid s).status_timestamps =
      o.status_timestamps := by
  unfold updateOrderPaymentStatus
  split <;> rename_i hs <;> simp [hs]

/-- Claim C5: the claim as stated is false — attaching proof while the
order is `out_for_delivery` does not fail with `InvalidState`: the proof
reference is set and the state stays `out_for_delivery`. -/
theorem attachProof_before_delivery_ctrex :
    (updateProofOfDelivery
        (updateOrderStatus 3 (createOrder 0 "u" false sampleAddress none)
          "out_for_delivery") "https://cdn/pod.jpg").proof_of_delivery_url =
      some "https://cdn/pod.jpg" ∧
    (updateProofOfDelivery
        (updateOrderStatus 3 (createOrder 0 "u" false sampleAddress none)
          "out_for_delivery") "https://cdn/pod.jpg").order_status =
      "out_for_delivery" := by
  decide

/-- Claim C5 (amended): `updateProofOfDelivery` sets the proof reference
unconditionally, in every fulfillment state, leaving the state
unchanged; only the admin UI hides the proof-upload section unless the
selected order is `delivered`. -/
theorem updateProofOfDelivery_unconditional (o : StarterPackOrder)
    (url s : String) :
    (updateProofOfDelivery o url).proof_of_delivery_url = some url ∧
    (updateProofOfDelivery o url).order_status = o.order_status ∧
    adminProofSectionShown s = (s == "delivered") :=
  ⟨rfl, rfl, rfl⟩

/-- Claim C6: the claim as stated is false — an order created with the
device is still created `received`/`completed` (not `pending`/`pending`),
and no estimated delivery is stored at creation. -/
theorem createOrder_device_still_received_ctrex :
    (createOrder 0 "u" true sampleAddress none).order_status = "received" ∧
    (createOrder 0 "u" true sampleAddress none).payment_status =
      "completed" ∧
    (createOrder 0 "u" false sampleAddress none).estimated_delivery =
      none := by
  decide

/-- Claim C6 (amended): `createOrder` always creates the order with
fulfillment `received` and payment `completed`, regardless of device
inclusion; total cost is 0 without the device and 499 with it; no
estimated delivery is stored at creation — `calculateEstimatedDelivery`
applied to the creation instant yields that instant plus 9 hours, on
demand. -/
theorem createOrder_initial_state (now : Int) (userId : String)
    (includesTablet : Bool) (addr : DeliveryAddress)
    (rid : Option String) :
    (createOrder now userId includesTablet addr rid).order_status =
      "received" ∧
    (createOrder now userId includesTablet addr rid).payment_status =
      "completed" ∧
    (createOrder now userId includesTablet addr rid).total_cost =
      (if includesTablet then 499 else 0) ∧
    (createOrder now userId includesTablet addr rid).estimated_delivery =
      none ∧
    calculateEstimatedDelivery
        (createOrder now userId includesTablet addr rid).created_at =
      now + 9 * 60 * 60 * 1000 := by
  refine ⟨rfl, rfl, ?_, rfl, rfl⟩
  cases includesTablet <;> rfl

/-- Claim C7: `isDelayed` is false whenever the fulfillment state is
`out_for_delivery` or `delivered`, regardless of `now`; otherwise it is
exactly `now > estimatedDelivery`.  (The clock read of the source is the
explicit `now` argument, so the function is deterministic in its
arguments.) -/
theorem isDelayed_pure_tiers (now orderDate eta : Int) (s : String) :
    (s = "out_for_delivery" ∨ s = "delivered" →
      isDelayed now orderDate s eta = false) ∧
    (s ≠ "out_for_delivery" → s ≠ "delivered" →
      isDelayed now orderDate s eta = decide (eta < now)) := by
  constructor
  · rintro (rfl | rfl) <;> rfl
  · intro h1 h2
    have hb : (s == "delivered" || s == "out_for_delivery") = false := by
      simp [h1, h2]
    simp [isDelayed, hb]

/-- Claim C7 at concrete inputs: an `out_for_delivery` order is never
delayed even long past the estimate, and a `preparing` order is delayed
exactly when `now` exceeds the estimate. -/
theorem isDelayed_pure_tiers_witness :
    isDelayed 99 0 "out_for_delivery" 5 = false ∧
    isDelayed 99 0 "preparing" 5 = decide ((5 : Int) < 99) :=
  ⟨(isDelayed_pure_tiers 99 0 5 "out_for_delivery").1 (Or.inl rfl),
   (isDelayed_pure_tiers 99 0 5 "preparing").2 (by decide) (by decide)⟩

/-- Claim C8: `getDelayMessage` has three tiers by elapsed time past the
estimate — under one hour a mild apology with no digit in it; from one
hour up to but excluding three hours the rounded-down hour count with
correct singular/plural wording ("1 hour", "2 hours"); at three hours or
more an escalation message directing to support, also digit-free. -/
theorem getDelayMessage_tiers (now eta : Int) :
    (now - eta < 3600000 → getDelayMessage now eta =
      "Your order is slightly delayed. We apologize for the inconvenience.") ∧
    (3600000 ≤ now - eta → now - eta < 7200000 → getDelayMessage now eta =
      "Your order is delayed by approximately 1 hour. Our team is working to get it to you as soon as possible.") ∧
    (7200000 ≤ now - eta → now - eta < 10800000 → getDelayMessage now eta =
      "Your order is delayed by approximately 2 hours. Our team is working to get it to you as soon as possible.") ∧
    (10800000 ≤ now - eta → getDelayMessage now eta =
      "We sincerely apologize for the delay. Your order is taking longer than expected. Please contact support for more information.") ∧
    (("Your order is slightly delayed. We apologize for the inconvenience.".toList.all
        fun c => !c.isDigit) = true) ∧
    (("We sincerely apologize for the delay. Your order is taking longer than expected. Please contact support for more information.".toList.all
        fun c => !c.isDigit) = true) := by
  have hfd : Int.fdiv (now - eta) (1000 * 60 * 60) = (now - eta) / 3600000 := by
    rw [Int.fdiv_eq_ediv _ (by norm_num)]
    norm_num
  refine ⟨?_, ?_, ?_, ?_, by decide, by decide⟩
  · intro h
    have hd : (now - eta) / 3600000 < 1 := by omega
    simp only [getDelayMessage, hfd]
    rw [if_pos hd]
  · intro h1 h2
    have hd : (now - eta) / 3600000 = 1 := by omega
    simp only [getDelayMessage, hfd, hd]
    decide
  · intro h1 h2
    have hd : (now - eta) / 3600000 = 2 := by omega
    simp only [getDelayMessage, hfd, hd]
    decide
  · intro h
    have hd : 3 ≤ (now - eta) / 3600000 := by omega
    simp only [getDelayMessage, hfd]
    rw [if_neg (by omega), if_neg (by omega)]

/-- Claim C8 at concrete inputs: exactly two hours past the estimate the
message reports "approximately 2 hours"; one hour past yields the
singular "1 hour". -/
theorem getDelayMessage_tiers_witness :
    getDelayMessage 7200000 0 =
      "Your order is delayed by approximately 2 hours. Our team is working to get it to you as soon as possible." ∧
    getDelayMessage 3600000 0 =
      "Your order is delayed by approximately 1 hour. Our team is working to get it to you as soon as possible." :=
  ⟨(getDelayMessage_tiers 7200000 0).2.2.1 (by decide) (by decide),
   (getDelayMessage_tiers 3600000 0).2.1 (by decide) (by decide)⟩

/-- Claim C9: `calculateEstimatedDelivery` adds exactly nine hours (in
milliseconds) to its argument, for all inputs. -/
theorem calculateEstimatedDelivery_nine_hours (orderDate : Int) :
    calculateEstimatedDelivery orderDate = orderDate + 9 * 60 * 60 * 1000 :=
  rfl

/-- Claim C10: `updateOrderStatus` writes only `order_status`, plus
`delivered_at` when the target is `delivered`; every other column keeps
its previous value, and an already-set `delivered_at` is carried over
unchanged by a non-`delivered` target. -/
theorem updateOrderStatus_frame (now : Int) (o : StarterPackOrder)
    (s : String) :
    (updateOrderStatus now o s).order_status = s ∧
    (updateOrderStatus now o s).delivered_at =
      (if s == "delivered" then some now else o.delivered_at) ∧
    (updateOrderStatus now o s).payment_status = o.payment_status ∧
    (updateOrderStatus now o s).stripe_payment_intent_id =
      o.stripe_payment_intent_id ∧
    (updateOrderStatus now o s).status_timestamps = o.status_timestamps ∧
    (updateOrderStatus now o s).proof_of_delivery_url =
      o.proof_of_delivery_url ∧
    (updateOrderStatus now o s).estimated_delivery = o.estimated_delivery ∧
    (updateOrderStatus now o s).total_cost = o.total_cost ∧
    (updateOrderStatus now o s).tablet_cost = o.tablet_cost ∧
    (updateOrderStatus now o s).includes_tablet = o.includes_tablet ∧
    (updateOrderStatus now o s).user_id = o.user_id ∧
    (updateOrderStatus now o s).restaurant_id = o.restaurant_id ∧
    (updateOrderStatus now o s).delivery_address_line1 =
      o.delivery_address_line1 ∧
    (updateOrderStatus now o s).delivery_address_line2 =
      o.delivery_address_line2 ∧
    (updateOrderStatus now o s).delivery_city = o.delivery_city ∧
    (updateOrderStatus now o s).delivery_emirate = o.delivery_emirate ∧
    (updateOrderStatus now o s).delivery_contact_number =
      o.delivery_contact_number ∧
    (updateOrderStatus now o s).created_at = o.created_at := by
  unfold updateOrderStatus
  split <;> rename_i hs <;> simp [hs]

end StarterPack
